import Mathlib

/-!
Shallow embedding of the timezone resolution and conversion core of the
repository's two variants: `mcp_server_time_lambda.py` (namespace `Original`)
and `mcp_server_time_lambda_optimized.py` (namespace `Optimized`), together
with theorems settling the specification claims.

Modelling conventions:
* The platform IANA timezone database is an external collaborator of the
  repository.  It is embedded as the finite table `iana_db`, holding the zones
  the claims exercise; every other name maps to `none` (an unknown name).
  `pytz.timezone` draws on the same IANA data, so the model reuses the same
  table under the alias `pytz_db`; a miss there corresponds to
  `pytz.UnknownTimeZoneError`.
* A timezone handle (`ZoneInfo`) carries its canonical name (Python `str(tz)`),
  its UTC offset in seconds and its DST offset in seconds, both sampled per
  calendar date (the rule data is applied at day granularity; the claims never
  straddle an intra-day DST transition).
* Python `timedelta` truthiness (`if offset:`) is embedded as `≠ 0` on the
  offset in seconds, since `timedelta(0)` is falsy.
* A Python exception escaping to the caller is embedded as `Except.error`; a
  returned dictionary is an ordinary record value.
* `datetime.time.fromisoformat` is embedded on the `HH:MM` sublanguage the
  repository documents; every claim input is in that sublanguage.
* The `lru_cache(maxsize=256)` wrapper on `get_timezone` and the module-level
  `_timezone_cache` dict are both part of the resolver state
  (`ResolverState.lru` and `ResolverState.dict`), threaded explicitly.
-/

/-- A civil time of day, the successful parse of an `HH:MM` string. -/
structure TimeOfDay where
  hour : Nat
  minute : Nat

deriving instance DecidableEq for TimeOfDay

def digitVal (c : Char) : Nat := c.toNat - 48

/-- `datetime.time.fromisoformat` restricted to the `HH:MM` sublanguage:
two digits, a colon, two digits, hour at most 23 and minute at most 59.
`none` embeds the `ValueError` the Python function raises. -/
def time_fromisoformat (s : String) : Option TimeOfDay :=
  match s.data with
  | [h1, h2, c, m1, m2] =>
    if h1.isDigit && h2.isDigit && c == ':' && m1.isDigit && m2.isDigit then
      let h := digitVal h1 * 10 + digitVal h2
      let m := digitVal m1 * 10 + digitVal m2
      if h ≤ 23 ∧ m ≤ 59 then some ⟨h, m⟩ else none
    else none
  | _ => none

/-- An aware local timestamp: the wall-clock reading in seconds since the
epoch of the local midnight reference, together with the UTC offset recorded
in its ISO-8601 rendering.  Two `LocalDT` values are equal exactly when the
`isoformat()` strings of the corresponding Python datetimes are equal. -/
structure LocalDT where
  wallSec : Int
  offsetSec : Int

deriving instance DecidableEq for LocalDT

/-- A timezone handle: canonical name plus offset data per calendar date. -/
structure ZoneInfo where
  key : String
  utcoffsetSec : Nat → Int
  dstSec : Nat → Int

def UTC_zone : ZoneInfo := ⟨"UTC", fun _ => 0, fun _ => 0⟩

def Seoul_zone : ZoneInfo := ⟨"Asia/Seoul", fun _ => 32400, fun _ => 0⟩

/-- United States daylight saving predicate sampled by day index, a model of
the rule data for `America/New_York` (roughly mid-March through early
November of each 365-day cycle). -/
def nyIsDst (d : Nat) : Bool := decide (69 ≤ d % 365) && decide (d % 365 < 307)

def NewYork_zone : ZoneInfo :=
  ⟨"America/New_York",
   fun d => if nyIsDst d then -14400 else -18000,
   fun d => if nyIsDst d then 3600 else 0⟩

def Warsaw_zone : ZoneInfo :=
  ⟨"Europe/Warsaw",
   fun d => if nyIsDst d then 7200 else 3600,
   fun d => if nyIsDst d then 3600 else 0⟩

/-- The platform timezone database (`zoneinfo.ZoneInfo`): a successful lookup
is a constructed handle, `none` embeds the exception raised on an unknown or
garbled key. -/
def iana_db (s : String) : Option ZoneInfo :=
  if s = "UTC" then some UTC_zone
  else if s = "Asia/Seoul" then some Seoul_zone
  else if s = "America/New_York" then some NewYork_zone
  else if s = "Europe/Warsaw" then some Warsaw_zone
  else none

/-- `pytz.timezone` lookup; the model draws on the same IANA table. -/
def pytz_db (s : String) : Option ZoneInfo := iana_db s

/-- First-match association-list lookup (Python dict membership and access,
given that insertion keeps at most one entry per key). -/
def alookup {α β : Type} [DecidableEq α] : List (α × β) → α → Option β
  | [], _ => none
  | (k, v) :: rest, key => if key = k then some v else alookup rest key

/-- Remove every entry with the given key. -/
def eraseKey {α β : Type} [DecidableEq α] (key : α) : List (α × β) → List (α × β)
  | [] => []
  | (k, v) :: rest => if key = k then eraseKey key rest else (k, v) :: eraseKey key rest

/-- `LOCAL_TZ_NAME = os.environ.get("TZ", "UTC")`, with the process
environment value of `TZ` threaded as an explicit parameter. -/
def LOCAL_TZ_NAME (tzEnv : Option String) : String := tzEnv.getD "UTC"

/-- The defaulting step `if not tz_name: tz_name = LOCAL_TZ_NAME` applied to
the optional argument (`None` and the empty string are both falsy). -/
def normName (tzEnv : Option String) (tz_name : Option String) : String :=
  match tz_name with
  | none => LOCAL_TZ_NAME tzEnv
  | some s => if s = "" then LOCAL_TZ_NAME tzEnv else s

/-- The resolver's process-wide mutable state: the `lru_cache` wrapper on
`get_timezone` (most-recent-first, keyed by the original optional argument)
and the module-level `_timezone_cache` dict (keyed by the defaulted name). -/
structure ResolverState where
  lru : List (Option String × ZoneInfo)
  dict : List (String × ZoneInfo)

def initState : ResolverState := ⟨[], []⟩

def LRU_MAXSIZE : Nat := 256

/-- On an `lru_cache` hit the entry moves to the most-recent position. -/
def lruTouch (k : Option String) (l : List (Option String × ZoneInfo)) :
    List (Option String × ZoneInfo) :=
  match alookup l k with
  | some z => (k, z) :: eraseKey k l
  | none => l

/-- `get_timezone` of the optimized variant: the `lru_cache` layer first; on a
miss, default the name, consult `_timezone_cache`, and on a dict miss
construct `zoneinfo.ZoneInfo(tz_name)` falling back to `ZoneInfo("UTC")`,
recording the outcome in the dict; finally record the call in the LRU layer,
evicting the least recent entry beyond `LRU_MAXSIZE`. -/
def get_timezone (tzEnv : Option String) (tz_name : Option String)
    (st : ResolverState) : ZoneInfo × ResolverState :=
  match alookup st.lru tz_name with
  | some z => (z, ⟨lruTouch tz_name st.lru, st.dict⟩)
  | none =>
    let n := normName tzEnv tz_name
    match alookup st.dict n with
    | some z => (z, ⟨((tz_name, z) :: st.lru).take LRU_MAXSIZE, st.dict⟩)
    | none =>
      let z := (iana_db n).getD UTC_zone
      (z, ⟨((tz_name, z) :: st.lru).take LRU_MAXSIZE, (n, z) :: st.dict⟩)

/-- Run a sequence of `get_timezone` calls for their state effect. -/
def runCalls (tzEnv : Option String) (calls : List (Option String))
    (st : ResolverState) : ResolverState :=
  calls.foldl (fun s k => (get_timezone tzEnv k s).2) st

/-- The pure value `get_timezone` computes for a defaulted name on a cold
cache: the database handle, or the UTC handle as the terminal fallback. -/
def pureResolveName (n : String) : ZoneInfo := (iana_db n).getD UTC_zone

/-- The pure value `get_timezone` computes for an argument on a cold cache. -/
def pureResolve (tzEnv : Option String) (k : Option String) : ZoneInfo :=
  pureResolveName (normName tzEnv k)

/-- Cache consistency: every cached handle is the one a cold lookup of its
key would construct.  This holds in every reachable state. -/
def Consistent (tzEnv : Option String) (st : ResolverState) : Prop :=
  (∀ k z, alookup st.lru k = some z → z = pureResolve tzEnv k) ∧
  (∀ n z, alookup st.dict n = some z → z = pureResolveName n)

/-- The exceptions the original variant can let escape to its caller. -/
inductive PyErr where
  | unknownTimeZoneError (name : String)
  | valueError (msg : String)

deriving instance DecidableEq for PyErr

/-- Result record of the optimized `get_current_time`. -/
structure CurrentOpt where
  timezone : String
  iso8601 : LocalDT
  dst : Bool
  utc_offset_hours : ℚ
  timestamp : Int

deriving instance DecidableEq for CurrentOpt

/-- Success record of the optimized `convert_time`. -/
structure ConvSuccess where
  source_time : LocalDT
  source_timezone : String
  target_time : LocalDT
  target_timezone : String
  dst_source : Bool
  dst_target : Bool
  utc_offset_diff_hours : Option ℚ
  time_difference_seconds : Int

deriving instance DecidableEq for ConvSuccess

/-- The optimized `convert_time` returns either the success record or the
structured invalid-input dictionary with its `error` and `details` texts. -/
inductive ConvOut where
  | ok (r : ConvSuccess)
  | err (error details : String)

deriving instance DecidableEq for ConvOut

/-- Result record of the original `get_current_time`. -/
structure CurrentOrig where
  timezone : String
  iso8601 : LocalDT
  dst : Bool
  utc_offset_hours : ℚ

deriving instance DecidableEq for CurrentOrig

/-- Success record of the original `convert_time` (the original has no
`time_difference_seconds` field). -/
structure ConvOrig where
  source_time : LocalDT
  source_timezone : String
  target_time : LocalDT
  target_timezone : String
  dst_source : Bool
  dst_target : Bool
  utc_offset_diff_hours : Option ℚ

deriving instance DecidableEq for ConvOrig

namespace Optimized

/-- Optimized `get_current_time`: the tool passes `timezone or LOCAL_TZ_NAME`
to `get_timezone` and projects the current instant into the handle.  The
ambient clock is `today` (day index) and `sod` (seconds past UTC midnight). -/
def get_current_time (tzEnv : Option String) (today : Nat) (sod : Int)
    (timezone : Option String) (st : ResolverState) : CurrentOpt × ResolverState :=
  let arg := normName tzEnv timezone
  let r := get_timezone tzEnv (some arg) st
  let tz := r.1
  let nowTs : Int := (today : Int) * 86400 + sod
  let off := tz.utcoffsetSec today
  ({ timezone := tz.key,
     iso8601 := ⟨nowTs + off, off⟩,
     dst := tz.dstSec today != 0,
     utc_offset_hours := if off ≠ 0 then (off : ℚ) / 3600 else 0,
     timestamp := nowTs }, r.2)

/-- Optimized `convert_time`: resolve both names through `get_timezone`, parse
the `HH:MM` string (a `ValueError` is caught and returned as the structured
error record), bind today's date to the source zone, re-project the same
instant into the target zone, and assemble the result record.  The
`utc_offset_diff_hours` guard is the truthiness test
`if tgt_offset and src_offset`. -/
def convert_time (tzEnv : Option String) (today : Nat)
    (source_timezone time target_timezone : String)
    (st : ResolverState) : ConvOut × ResolverState :=
  let r1 := get_timezone tzEnv (some source_timezone) st
  let src_tz := r1.1
  let r2 := get_timezone tzEnv (some target_timezone) r1.2
  let tgt_tz := r2.1
  match time_fromisoformat time with
  | none =>
    (ConvOut.err ("Invalid time format: " ++ time ++ ". Expected HH:MM format.")
                 ("Invalid isoformat string: " ++ time), r2.2)
  | some t =>
    let wallSrc : Int := (today : Int) * 86400 + (t.hour : Int) * 3600 + (t.minute : Int) * 60
    let srcOff := src_tz.utcoffsetSec today
    let tgtOff := tgt_tz.utcoffsetSec today
    let tsSrc := wallSrc - srcOff
    let wallTgt := tsSrc + tgtOff
    let tsTgt := wallTgt - tgtOff
    (ConvOut.ok
      { source_time := ⟨wallSrc, srcOff⟩,
        source_timezone := src_tz.key,
        target_time := ⟨wallTgt, tgtOff⟩,
        target_timezone := tgt_tz.key,
        dst_source := src_tz.dstSec today != 0,
        dst_target := tgt_tz.dstSec today != 0,
        utc_offset_diff_hours :=
          if tgtOff ≠ 0 ∧ srcOff ≠ 0
          then some (((tgtOff - srcOff : Int) : ℚ) / 3600)
          else none,
        time_difference_seconds := tsTgt - tsSrc }, r2.2)

end Optimized

namespace Original

/-- `get_local_timezone` of the original variant: `ZoneInfo(TZ or "UTC")`,
on failure `pytz.timezone(tzlocal.get_localzone_name())` (the OS zone name is
the explicit parameter `osZone`, `none` when `tzlocal` itself fails), on
failure `pytz.UTC`. -/
def get_local_timezone (tzEnv osZone : Option String) : ZoneInfo :=
  match iana_db (tzEnv.getD "UTC") with
  | some z => z
  | none =>
    match osZone with
    | some s =>
      match pytz_db s with
      | some z => z
      | none => UTC_zone
    | none => UTC_zone

/-- The inline resolution chain of the original `get_current_time`: falsy
argument or double lookup failure falls back to the module-level
`local_timezone`; it never raises. -/
def resolveCurrent (tzEnv osZone : Option String) (timezone : Option String) : ZoneInfo :=
  match timezone with
  | none => get_local_timezone tzEnv osZone
  | some s =>
    if s = "" then get_local_timezone tzEnv osZone
    else
      match iana_db s with
      | some z => z
      | none =>
        match pytz_db s with
        | some z => z
        | none => get_local_timezone tzEnv osZone

/-- The inline resolution chain of the original `convert_time`:
`zoneinfo.ZoneInfo(name)`, and on failure a bare `pytz.timezone(name)` whose
`UnknownTimeZoneError` is NOT caught and escapes to the caller. -/
def resolveConvert (name : String) : Except PyErr ZoneInfo :=
  match iana_db name with
  | some z => Except.ok z
  | none =>
    match pytz_db name with
    | some z => Except.ok z
    | none => Except.error (PyErr.unknownTimeZoneError name)

/-- Original `get_current_time`. -/
def get_current_time (tzEnv osZone : Option String) (today : Nat) (sod : Int)
    (timezone : Option String) : CurrentOrig :=
  let tz := resolveCurrent tzEnv osZone timezone
  let nowTs : Int := (today : Int) * 86400 + sod
  let off := tz.utcoffsetSec today
  { timezone := tz.key,
    iso8601 := ⟨nowTs + off, off⟩,
    dst := tz.dstSec today != 0,
    utc_offset_hours := if off ≠ 0 then (off : ℚ) / 3600 else 0 }

/-- Original `convert_time`: both the resolution chain and the unguarded
`time.fromisoformat` call can raise; otherwise the record mirrors the
optimized one without the `time_difference_seconds` field. -/
def convert_time (today : Nat) (source_timezone time target_timezone : String) :
    Except PyErr ConvOrig :=
  match resolveConvert source_timezone with
  | Except.error e => Except.error e
  | Except.ok src_tz =>
    match resolveConvert target_timezone with
    | Except.error e => Except.error e
    | Except.ok tgt_tz =>
      match time_fromisoformat time with
      | none => Except.error (PyErr.valueError ("Invalid isoformat string: " ++ time))
      | some t =>
        let wallSrc : Int := (today : Int) * 86400 + (t.hour : Int) * 3600 + (t.minute : Int) * 60
        let srcOff := src_tz.utcoffsetSec today
        let tgtOff := tgt_tz.utcoffsetSec today
        let wallTgt := wallSrc - srcOff + tgtOff
        Except.ok
          { source_time := ⟨wallSrc, srcOff⟩,
            source_timezone := src_tz.key,
            target_time := ⟨wallTgt, tgtOff⟩,
            target_timezone := tgt_tz.key,
            dst_source := src_tz.dstSec today != 0,
            dst_target := tgt_tz.dstSec today != 0,
            utc_offset_diff_hours :=
              if tgtOff ≠ 0 ∧ srcOff ≠ 0
              then some (((tgtOff - srcOff : Int) : ℚ) / 3600)
              else none }

end Original

/-- Projection: the `utc_offset_diff_hours` field of an optimized conversion
result, `none` when the call returned the error record. -/
def optConvDiff : ConvOut → Option (Option ℚ)
  | ConvOut.ok r => some r.utc_offset_diff_hours
  | ConvOut.err _ _ => none

/-- Projection: the `time_difference_seconds` field of an optimized
conversion result. -/
def optTimeDiff : ConvOut → Option Int
  | ConvOut.ok r => some r.time_difference_seconds
  | ConvOut.err _ _ => none

/-- Projection: the `utc_offset_diff_hours` field of an original conversion
result, `none` when the call raised. -/
def origConvDiff : Except PyErr ConvOrig → Option (Option ℚ)
  | Except.ok r => some r.utc_offset_diff_hours
  | Except.error _ => none

/-! ### Association-list lemmas -/

theorem alookup_cons {α β : Type} [DecidableEq α] (a : α) (b : β) (l : List (α × β)) (k : α) :
    alookup ((a, b) :: l) k = if k = a then some b else alookup l k := rfl

theorem alookup_take_some {α β : Type} [DecidableEq α] :
    ∀ (l : List (α × β)) (n : Nat) (k : α) (v : β),
      alookup (l.take n) k = some v → alookup l k = some v := by
  intro l
  induction l with
  | nil => intro n k v h; simp [alookup] at h
  | cons p tl ih =>
    intro n k v h
    obtain ⟨a, b⟩ := p
    cases n with
    | zero => simp [alookup] at h
    | succ n =>
      rw [List.take_succ_cons] at h
      rw [alookup_cons] at h ⊢
      by_cases hk : k = a
      · simpa [hk] using h
      · simp only [hk, if_false] at h ⊢
        exact ih n k v h

theorem alookup_take_none {α β : Type} [DecidableEq α] :
    ∀ (l : List (α × β)) (n : Nat) (k : α),
      alookup l k = none → alookup (l.take n) k = none := by
  intro l
  induction l with
  | nil => intro n k _; simp [alookup]
  | cons p tl ih =>
    intro n k h
    obtain ⟨a, b⟩ := p
    cases n with
    | zero => simp [alookup]
    | succ n =>
      rw [List.take_succ_cons]
      rw [alookup_cons] at h ⊢
      by_cases hk : k = a
      · simp [hk] at h
      · simp only [hk, if_false] at h ⊢
        exact ih n k h

theorem alookup_take_cons_self {α β : Type} [DecidableEq α] (a : α) (b : β)
    (l : List (α × β)) (n : Nat) (hn : 0 < n) :
    alookup (((a, b) :: l).take n) a = some b := by
  cases n with
  | zero => omega
  | succ n => rw [List.take_succ_cons, alookup_cons]; simp

theorem alookup_eraseKey_ne {α β : Type} [DecidableEq α] (key k : α) (hk : k ≠ key) :
    ∀ l : List (α × β), alookup (eraseKey key l) k = alookup l k := by
  intro l
  induction l with
  | nil => rfl
  | cons p tl ih =>
    obtain ⟨a, b⟩ := p
    by_cases ha : key = a
    · rw [show eraseKey key ((a, b) :: tl) = eraseKey key tl from by simp [eraseKey, ha]]
      rw [ih, alookup_cons]
      have : k ≠ a := fun h => hk (h.trans ha.symm)
      simp [this]
    · rw [show eraseKey key ((a, b) :: tl) = (a, b) :: eraseKey key tl from by simp [eraseKey, ha]]
      rw [alookup_cons, alookup_cons, ih]

theorem eraseKey_cons {α β : Type} [DecidableEq α] (key a : α) (b : β) (l : List (α × β)) :
    eraseKey key ((a, b) :: l) =
      if key = a then eraseKey key l else (a, b) :: eraseKey key l := rfl

theorem eraseKey_length_le {α β : Type} [DecidableEq α] (key : α) :
    ∀ l : List (α × β), (eraseKey key l).length ≤ l.length := by
  intro l
  induction l with
  | nil => simp [eraseKey]
  | cons p tl ih =>
    obtain ⟨a, b⟩ := p
    rw [eraseKey_cons]
    by_cases ha : key = a
    · rw [if_pos ha]
      simp only [List.length_cons]
      omega
    · rw [if_neg ha]
      simp only [List.length_cons]
      omega

theorem eraseKey_length_lt {α β : Type} [DecidableEq α] (key : α) :
    ∀ (l : List (α × β)) (v : β), alookup l key = some v →
      (eraseKey key l).length < l.length := by
  intro l
  induction l with
  | nil => intro v h; simp [alookup] at h
  | cons p tl ih =>
    intro v h
    obtain ⟨a, b⟩ := p
    rw [eraseKey_cons]
    by_cases ha : key = a
    · rw [if_pos ha]
      simp only [List.length_cons]
      exact Nat.lt_succ_of_le (eraseKey_length_le key tl)
    · rw [alookup_cons, if_neg ha] at h
      rw [if_neg ha]
      simp only [List.length_cons]
      exact Nat.succ_lt_succ (ih v h)

theorem alookup_none_not_mem {α β : Type} [DecidableEq α] :
    ∀ (l : List (α × β)) (k : α), alookup l k = none → k ∉ l.map Prod.fst := by
  intro l
  induction l with
  | nil => intro k _; simp
  | cons p tl ih =>
    intro k h
    obtain ⟨a, b⟩ := p
    rw [alookup_cons] at h
    by_cases hk : k = a
    · simp [hk] at h
    · simp only [hk, if_false] at h
      simp only [List.map_cons, List.mem_cons, not_or]
      exact ⟨hk, ih k h⟩

/-! ### LRU-touch lemmas -/

theorem lruTouch_of_none (k : Option String) (l : List (Option String × ZoneInfo))
    (h : alookup l k = none) : lruTouch k l = l := by
  unfold lruTouch
  rw [h]

theorem lruTouch_of_some (k : Option String) (l : List (Option String × ZoneInfo))
    (z : ZoneInfo) (h : alookup l k = some z) :
    lruTouch k l = (k, z) :: eraseKey k l := by
  unfold lruTouch
  rw [h]

theorem lruTouch_lookup (k : Option String) (l : List (Option String × ZoneInfo)) :
    ∀ (k2 : Option String) (z2 : ZoneInfo),
      alookup (lruTouch k l) k2 = some z2 → alookup l k2 = some z2 := by
  intro k2 z2 h
  cases hl : alookup l k with
  | none => rwa [lruTouch_of_none k l hl] at h
  | some z =>
    rw [lruTouch_of_some k l z hl, alookup_cons] at h
    by_cases hk : k2 = k
    · rw [if_pos hk, Option.some.injEq] at h
      rw [hk, hl, h]
    · rw [if_neg hk] at h
      rwa [alookup_eraseKey_ne k k2 hk] at h

theorem lruTouch_length_le (k : Option String) (l : List (Option String × ZoneInfo)) :
    (lruTouch k l).length ≤ l.length := by
  cases hl : alookup l k with
  | none => rw [lruTouch_of_none k l hl]
  | some z =>
    rw [lruTouch_of_some k l z hl]
    simp only [List.length_cons]
    have := eraseKey_length_lt k l z hl
    omega

/-! ### Branch lemmas for `get_timezone` -/

theorem get_timezone_of_hit (tzEnv k : Option String) (st : ResolverState) (z : ZoneInfo)
    (h : alookup st.lru k = some z) :
    get_timezone tzEnv k st = (z, ⟨lruTouch k st.lru, st.dict⟩) := by
  unfold get_timezone
  rw [h]

theorem get_timezone_of_dict_hit (tzEnv k : Option String) (st : ResolverState) (z : ZoneInfo)
    (h1 : alookup st.lru k = none) (h2 : alookup st.dict (normName tzEnv k) = some z) :
    get_timezone tzEnv k st = (z, ⟨((k, z) :: st.lru).take LRU_MAXSIZE, st.dict⟩) := by
  unfold get_timezone
  rw [h1]
  simp only [h2]

theorem get_timezone_of_miss (tzEnv k : Option String) (st : ResolverState)
    (h1 : alookup st.lru k = none) (h2 : alookup st.dict (normName tzEnv k) = none) :
    get_timezone tzEnv k st =
      (pureResolve tzEnv k,
       ⟨((k, pureResolve tzEnv k) :: st.lru).take LRU_MAXSIZE,
        (normName tzEnv k, pureResolve tzEnv k) :: st.dict⟩) := by
  unfold get_timezone
  rw [h1]
  simp only [h2]
  rfl

/-! ### Cache consistency machinery -/

theorem consistent_init (tzEnv : Option String) : Consistent tzEnv initState := by
  constructor
  · intro k z h
    simp [initState, alookup] at h
  · intro n z h
    simp [initState, alookup] at h

theorem get_timezone_fst (tzEnv k : Option String) (st : ResolverState)
    (h : Consistent tzEnv st) :
    (get_timezone tzEnv k st).1 = pureResolve tzEnv k := by
  cases hlru : alookup st.lru k with
  | some z =>
    rw [get_timezone_of_hit tzEnv k st z hlru]
    exact h.1 k z hlru
  | none =>
    cases hdict : alookup st.dict (normName tzEnv k) with
    | some z =>
      rw [get_timezone_of_dict_hit tzEnv k st z hlru hdict]
      exact h.2 _ z hdict
    | none =>
      rw [get_timezone_of_miss tzEnv k st hlru hdict]

theorem consistent_step (tzEnv : Option String) (k : Option String) (st : ResolverState)
    (h : Consistent tzEnv st) : Consistent tzEnv ((get_timezone tzEnv k st).2) := by
  cases hlru : alookup st.lru k with
  | some z =>
    rw [get_timezone_of_hit tzEnv k st z hlru]
    refine ⟨?_, h.2⟩
    intro k2 z2 h2
    exact h.1 k2 z2 (lruTouch_lookup k st.lru k2 z2 h2)
  | none =>
    cases hdict : alookup st.dict (normName tzEnv k) with
    | some z =>
      rw [get_timezone_of_dict_hit tzEnv k st z hlru hdict]
      refine ⟨?_, h.2⟩
      intro k2 z2 h2
      have h3 := alookup_take_some _ _ _ _ h2
      rw [alookup_cons] at h3
      by_cases hk : k2 = k
      · rw [if_pos hk, Option.some.injEq] at h3
        rw [← h3, hk]
        exact h.2 _ z hdict
      · rw [if_neg hk] at h3
        exact h.1 k2 z2 h3
    | none =>
      rw [get_timezone_of_miss tzEnv k st hlru hdict]
      constructor
      · intro k2 z2 h2
        have h3 := alookup_take_some _ _ _ _ h2
        rw [alookup_cons] at h3
        by_cases hk : k2 = k
        · rw [if_pos hk, Option.some.injEq] at h3
          rw [← h3, hk]
        · rw [if_neg hk] at h3
          exact h.1 k2 z2 h3
      · intro n2 z2 h2
        rw [alookup_cons] at h2
        by_cases hn : n2 = normName tzEnv k
        · rw [if_pos hn, Option.some.injEq] at h2
          rw [← h2, hn]
          rfl
        · rw [if_neg hn] at h2
          exact h.2 n2 z2 h2

theorem runCalls_preserve (tzEnv : Option String) (P : ResolverState → Prop)
    (hstep : ∀ k st, P st → P ((get_timezone tzEnv k st).2)) :
    ∀ (calls : List (Option String)) (st : ResolverState), P st → P (runCalls tzEnv calls st)
  | [], _, h => h
  | c :: cs, st, h => runCalls_preserve tzEnv P hstep cs _ (hstep c st h)

theorem consistent_runCalls (tzEnv : Option String) (calls : List (Option String)) :
    Consistent tzEnv (runCalls tzEnv calls initState) :=
  runCalls_preserve tzEnv (Consistent tzEnv) (consistent_step tzEnv) calls initState
    (consistent_init tzEnv)

/-- In every reachable state, `get_timezone` returns the cold-cache value. -/
theorem get_timezone_runCalls_fst (tzEnv : Option String) (calls : List (Option String))
    (k : Option String) :
    (get_timezone tzEnv k (runCalls tzEnv calls initState)).1 = pureResolve tzEnv k :=
  get_timezone_fst tzEnv k _ (consistent_runCalls tzEnv calls)

/-! ### Memoization lemmas -/

theorem get_timezone_after_lookup (tzEnv k : Option String) (st : ResolverState) :
    alookup ((get_timezone tzEnv k st).2).lru k = some (get_timezone tzEnv k st).1 := by
  cases hlru : alookup st.lru k with
  | some z =>
    rw [get_timezone_of_hit tzEnv k st z hlru]
    rw [lruTouch_of_some k st.lru z hlru, alookup_cons, if_pos rfl]
  | none =>
    cases hdict : alookup st.dict (normName tzEnv k) with
    | some z =>
      rw [get_timezone_of_dict_hit tzEnv k st z hlru hdict]
      exact alookup_take_cons_self k z st.lru LRU_MAXSIZE (by decide)
    | none =>
      rw [get_timezone_of_miss tzEnv k st hlru hdict]
      exact alookup_take_cons_self k _ st.lru LRU_MAXSIZE (by decide)

/-- A repeated resolution of the same argument hits the LRU layer and
returns the very same handle, from any starting state. -/
theorem get_timezone_repeat_fst (tzEnv k : Option String) (st : ResolverState) :
    (get_timezone tzEnv k ((get_timezone tzEnv k st).2)).1 = (get_timezone tzEnv k st).1 := by
  rw [get_timezone_of_hit tzEnv k _ _ (get_timezone_after_lookup tzEnv k st)]

/-! ### Dict growth and preservation lemmas -/

theorem get_timezone_dict_persist (tzEnv k : Option String) (st : ResolverState)
    (n : String) (z : ZoneInfo) (h : alookup st.dict n = some z) :
    alookup ((get_timezone tzEnv k st).2).dict n = some z := by
  cases hlru : alookup st.lru k with
  | some z2 => rw [get_timezone_of_hit tzEnv k st z2 hlru]; exact h
  | none =>
    cases hdict : alookup st.dict (normName tzEnv k) with
    | some z2 => rw [get_timezone_of_dict_hit tzEnv k st z2 hlru hdict]; exact h
    | none =>
      rw [get_timezone_of_miss tzEnv k st hlru hdict]
      rw [alookup_cons]
      have hne : n ≠ normName tzEnv k := by
        intro he
        rw [he, hdict] at h
        exact Option.noConfusion h
      rw [if_neg hne]
      exact h

theorem get_timezone_dict_nodup (tzEnv k : Option String) (st : ResolverState)
    (h : (st.dict.map Prod.fst).Nodup) :
    (((get_timezone tzEnv k st).2).dict.map Prod.fst).Nodup := by
  cases hlru : alookup st.lru k with
  | some z => rwa [get_timezone_of_hit tzEnv k st z hlru]
  | none =>
    cases hdict : alookup st.dict (normName tzEnv k) with
    | some z => rwa [get_timezone_of_dict_hit tzEnv k st z hlru hdict]
    | none =>
      rw [get_timezone_of_miss tzEnv k st hlru hdict]
      simp only [List.map_cons]
      exact List.nodup_cons.mpr ⟨alookup_none_not_mem _ _ hdict, h⟩

theorem get_timezone_lru_bound (tzEnv k : Option String) (st : ResolverState)
    (h : st.lru.length ≤ LRU_MAXSIZE) :
    ((get_timezone tzEnv k st).2).lru.length ≤ LRU_MAXSIZE := by
  cases hlru : alookup st.lru k with
  | some z =>
    rw [get_timezone_of_hit tzEnv k st z hlru]
    exact le_trans (lruTouch_length_le k st.lru) h
  | none =>
    cases hdict : alookup st.dict (normName tzEnv k) with
    | some z =>
      rw [get_timezone_of_dict_hit tzEnv k st z hlru hdict]
      exact List.length_take_le LRU_MAXSIZE _
    | none =>
      rw [get_timezone_of_miss tzEnv k st hlru hdict]
      exact List.length_take_le LRU_MAXSIZE _

/-! ### Fresh-name machinery: distinct unknown names grow the dict without bound -/

def freshName (i : Nat) : String := String.mk (List.replicate (i + 1) 'a')

def freshNames (n : Nat) : List String := (List.range n).map freshName

theorem freshName_ne_empty (i : Nat) : freshName i ≠ "" := by
  intro h
  have h2 : List.replicate (i + 1) 'a' = ([] : List Char) := congrArg String.data h
  simp at h2

theorem freshName_injective : Function.Injective freshName := by
  intro i j h
  have h2 : List.replicate (i + 1) 'a' = List.replicate (j + 1) 'a' := congrArg String.data h
  have h3 := congrArg List.length h2
  simp only [List.length_replicate] at h3
  omega

theorem freshNames_nodup (n : Nat) : (freshNames n).Nodup :=
  (List.nodup_range n).map freshName_injective

theorem freshNames_length (n : Nat) : (freshNames n).length = n := by
  simp [freshNames]

theorem get_timezone_fresh_step (tzEnv : Option String) (s : String) (st : ResolverState)
    (hne : s ≠ "") (hlru : alookup st.lru (some s) = none) (hdict : alookup st.dict s = none) :
    (get_timezone tzEnv (some s) st).2 =
      ⟨((some s, pureResolveName s) :: st.lru).take LRU_MAXSIZE,
       (s, pureResolveName s) :: st.dict⟩ := by
  have hn : normName tzEnv (some s) = s := by simp [normName, hne]
  have hd : alookup st.dict (normName tzEnv (some s)) = none := by rwa [hn]
  rw [get_timezone_of_miss tzEnv (some s) st hlru hd]
  rw [show pureResolve tzEnv (some s) = pureResolveName s from by rw [pureResolve, hn]]
  rw [hn]

theorem run_fresh (tzEnv : Option String) :
    ∀ (names : List String) (st : ResolverState),
      names.Nodup →
      (∀ s ∈ names, s ≠ "" ∧ alookup st.lru (some s) = none ∧ alookup st.dict s = none) →
      (runCalls tzEnv (names.map some) st).dict.length = st.dict.length + names.length := by
  intro names
  induction names with
  | nil => intro st _ _; simp [runCalls]
  | cons s ts ih =>
    intro st hnd hfresh
    obtain ⟨hs, hlru, hdict⟩ := hfresh s (List.mem_cons_self s ts)
    have hstep := get_timezone_fresh_step tzEnv s st hs hlru hdict
    have hrun : runCalls tzEnv ((s :: ts).map some) st
        = runCalls tzEnv (ts.map some) ((get_timezone tzEnv (some s) st).2) := rfl
    rw [hrun, hstep]
    have htail : ∀ t ∈ ts, t ≠ "" ∧
        alookup (((some s, pureResolveName s) :: st.lru).take LRU_MAXSIZE) (some t) = none ∧
        alookup ((s, pureResolveName s) :: st.dict) t = none := by
      intro t ht
      obtain ⟨ht1, ht2, ht3⟩ := hfresh t (List.mem_cons_of_mem s ht)
      have hts : t ≠ s := by
        intro hts
        subst hts
        exact (List.nodup_cons.mp hnd).1 ht
      refine ⟨ht1, ?_, ?_⟩
      · apply alookup_take_none
        rw [alookup_cons]
        have : (some t : Option String) ≠ some s := by
          intro h; exact hts (Option.some.inj h)
        rw [if_neg this]
        exact ht2
      · rw [alookup_cons, if_neg hts]
        exact ht3
    have hlen := ih ((⟨((some s, pureResolveName s) :: st.lru).take LRU_MAXSIZE,
        (s, pureResolveName s) :: st.dict⟩ : ResolverState)) (List.nodup_cons.mp hnd).2 htail
    rw [hlen]
    simp only [List.length_cons]
    omega

/-! ### Normal form of a successful optimized conversion -/

/-- The handle the optimized `convert_time` uses for its source argument. -/
def srcZone (tzEnv : Option String) (src : String) (st : ResolverState) : ZoneInfo :=
  (get_timezone tzEnv (some src) st).1

/-- The handle the optimized `convert_time` uses for its target argument
(resolved in the state left behind by the source resolution). -/
def tgtZone (tzEnv : Option String) (src tgt : String) (st : ResolverState) : ZoneInfo :=
  (get_timezone tzEnv (some tgt) ((get_timezone tzEnv (some src) st).2)).1

/-- The naive wall-clock reading `datetime.combine(today, time)` in seconds. -/
def wallOf (today : Nat) (t : TimeOfDay) : Int :=
  (today : Int) * 86400 + (t.hour : Int) * 3600 + (t.minute : Int) * 60

/-- Resolving the same argument twice in a row yields the same handle, so a
same-zone conversion sees one handle on both sides. -/
theorem tgtZone_same (tzEnv : Option String) (A : String) (st : ResolverState) :
    tgtZone tzEnv A A st = srcZone tzEnv A st :=
  get_timezone_repeat_fst tzEnv (some A) st

/-- Normal form of a successful optimized conversion: the target wall clock is
the source instant re-projected into the target zone, and the
`time_difference_seconds` field collapses to zero because source and target
carry the same instant. -/
theorem convert_time_opt_eq (tzEnv : Option String) (today : Nat)
    (src time tgt : String) (st : ResolverState) (t : TimeOfDay)
    (hp : time_fromisoformat time = some t) :
    (Optimized.convert_time tzEnv today src time tgt st).1 =
      ConvOut.ok
        { source_time := ⟨wallOf today t, (srcZone tzEnv src st).utcoffsetSec today⟩,
          source_timezone := (srcZone tzEnv src st).key,
          target_time := ⟨wallOf today t - (srcZone tzEnv src st).utcoffsetSec today
              + (tgtZone tzEnv src tgt st).utcoffsetSec today,
            (tgtZone tzEnv src tgt st).utcoffsetSec today⟩,
          target_timezone := (tgtZone tzEnv src tgt st).key,
          dst_source := (srcZone tzEnv src st).dstSec today != 0,
          dst_target := (tgtZone tzEnv src tgt st).dstSec today != 0,
          utc_offset_diff_hours :=
            if (tgtZone tzEnv src tgt st).utcoffsetSec today ≠ 0 ∧
               (srcZone tzEnv src st).utcoffsetSec today ≠ 0
            then some ((((tgtZone tzEnv src tgt st).utcoffsetSec today
                - (srcZone tzEnv src st).utcoffsetSec today : Int) : ℚ) / 3600)
            else none,
          time_difference_seconds := 0 } := by
  simp only [Optimized.convert_time, hp, srcZone, tgtZone, wallOf, ConvOut.ok.injEq,
    ConvSuccess.mk.injEq, true_and, and_true]
  omega

/-! ### Claim theorems -/

/-- Claim C5 (confirmed): resolving a timezone name string and then resolving
the same string a second time within the same process returns the very same
handle — in particular one with the same canonical name — from every resolver
state: the resolution outcome, including fallback outcomes, is memoized under
the original input across calls. -/
theorem C5_resolution_memoized (tzEnv name : Option String) (st : ResolverState) :
    (get_timezone tzEnv name ((get_timezone tzEnv name st).2)).1
      = (get_timezone tzEnv name st).1 ∧
    ((get_timezone tzEnv name ((get_timezone tzEnv name st).2)).1).key
      = ((get_timezone tzEnv name st).1).key := by
  have h := get_timezone_repeat_fst tzEnv name st
  exact ⟨h, congrArg ZoneInfo.key h⟩

/-- Claim C6 (corrected, amended): for the optimized resolver, each distinct
defaulted input string maps to at most one `_timezone_cache` entry (keys stay
pairwise distinct), entries are never invalidated by any later call, and the
`lru_cache` layer stays within its 256-entry ceiling; the `_timezone_cache`
dict itself, however, is NOT bounded: a run of `n` distinct unknown names
leaves exactly `n` entries in it, for every `n`. -/
theorem C6_cache_invariants (tzEnv : Option String) :
    (∀ calls, ((runCalls tzEnv calls initState).dict.map Prod.fst).Nodup) ∧
    (∀ k st n z, alookup st.dict n = some z →
      alookup ((get_timezone tzEnv k st).2).dict n = some z) ∧
    (∀ calls, (runCalls tzEnv calls initState).lru.length ≤ LRU_MAXSIZE) ∧
    (∀ n, (runCalls tzEnv ((freshNames n).map some) initState).dict.length = n) := by
  refine ⟨?_, ?_, ?_, ?_⟩
  · intro calls
    exact runCalls_preserve tzEnv (fun st => (st.dict.map Prod.fst).Nodup)
      (fun k st h => get_timezone_dict_nodup tzEnv k st h) calls initState
      (by simp [initState])
  · intro k st n z h
    exact get_timezone_dict_persist tzEnv k st n z h
  · intro calls
    exact runCalls_preserve tzEnv (fun st => st.lru.length ≤ LRU_MAXSIZE)
      (fun k st h => get_timezone_lru_bound tzEnv k st h) calls initState
      (by simp [initState])
  · intro n
    have hfresh : ∀ s ∈ freshNames n, s ≠ "" ∧
        alookup initState.lru (some s) = none ∧ alookup initState.dict s = none := by
      intro s hs
      obtain ⟨i, _, rfl⟩ := List.mem_map.mp hs
      exact ⟨freshName_ne_empty i, rfl, rfl⟩
    have h := run_fresh tzEnv (freshNames n) initState (freshNames_nodup n) hfresh
    rw [h, freshNames_length]
    simp [initState]

/-- Witness for C6: a cached entry (here the UTC handle stored under "UTC")
survives a subsequent resolution of a different name. -/
theorem C6_cache_invariants_witness :
    alookup (⟨[], [("UTC", UTC_zone)]⟩ : ResolverState).dict "UTC" = some UTC_zone ∧
    alookup ((get_timezone none (some "Asia/Seoul")
        (⟨[], [("UTC", UTC_zone)]⟩ : ResolverState)).2).dict "UTC" = some UTC_zone :=
  ⟨rfl, (C6_cache_invariants none).2.1 (some "Asia/Seoul")
      (⟨[], [("UTC", UTC_zone)]⟩ : ResolverState) "UTC" UTC_zone rfl⟩

/-- Counterexample for C6 as stated: the resolver cache `_timezone_cache` is
not bounded by any capacity ceiling — for every candidate ceiling `C`, the
run of `C + 1` distinct unknown names leaves `C + 1` entries in it, so no
least-recently-used eviction ever shrinks the dict. -/
theorem C6_counterexample :
    ¬ ∃ C : Nat, ∀ calls : List (Option String),
        (runCalls none calls initState).dict.length ≤ C := by
  rintro ⟨C, hC⟩
  have hfresh : ∀ s ∈ freshNames (C + 1), s ≠ "" ∧
      alookup initState.lru (some s) = none ∧ alookup initState.dict s = none := by
    intro s hs
    obtain ⟨i, _, rfl⟩ := List.mem_map.mp hs
    exact ⟨freshName_ne_empty i, rfl, rfl⟩
  have h := run_fresh none (freshNames (C + 1)) initState (freshNames_nodup (C + 1)) hfresh
  have h2 := hC ((freshNames (C + 1)).map some)
  rw [h, freshNames_length] at h2
  simp [initState] at h2

/-- Claim C1 (corrected, amended): the optimized `get_timezone` never raises
and returns a handle whose canonical name is UTC for every unknown nonempty
string, in every reachable state; the original `get_current_time` inline
chain never raises either, but it falls back to the module-level
`local_timezone` rather than to UTC; and the original `convert_time` inline
chain raises `UnknownTimeZoneError` to the caller for every string absent
from both databases, instead of degrading to UTC. -/
theorem C1_resolution_fallback (tzEnv : Option String) (s : String)
    (hne : s ≠ "") (hdb : iana_db s = none) :
    (∀ calls,
      ((get_timezone tzEnv (some s) (runCalls tzEnv calls initState)).1).key = "UTC") ∧
    (∀ osZone, Original.resolveCurrent tzEnv osZone (some s)
        = Original.get_local_timezone tzEnv osZone) ∧
    Original.resolveConvert s = Except.error (PyErr.unknownTimeZoneError s) := by
  have hpure : pureResolve tzEnv (some s) = UTC_zone := by
    rw [pureResolve, show normName tzEnv (some s) = s from by simp [normName, hne],
      pureResolveName, hdb]
    rfl
  refine ⟨?_, ?_, ?_⟩
  · intro calls
    rw [get_timezone_runCalls_fst tzEnv calls (some s), hpure]
    rfl
  · intro osZone
    simp only [Original.resolveCurrent, if_neg hne, hdb, pytz_db]
  · simp only [Original.resolveConvert, hdb, pytz_db]

/-- Witness for C1 (amended): the unknown name "Invalid/Zone" resolves to the
UTC handle in the optimized variant, to the local timezone in the original
`get_current_time` chain, and raises in the original `convert_time` chain. -/
theorem C1_resolution_fallback_witness :
    ("Invalid/Zone" ≠ "" ∧ iana_db "Invalid/Zone" = none) ∧
    ((get_timezone none (some "Invalid/Zone") (runCalls none [] initState)).1).key = "UTC" ∧
    Original.resolveCurrent none none (some "Invalid/Zone")
      = Original.get_local_timezone none none ∧
    Original.resolveConvert "Invalid/Zone"
      = Except.error (PyErr.unknownTimeZoneError "Invalid/Zone") := by
  have h := C1_resolution_fallback none "Invalid/Zone" (by decide) rfl
  exact ⟨⟨by decide, rfl⟩, h.1 [], h.2.1 none, h.2.2⟩

/-- Counterexample for C1 as stated: the original `convert_time` invoked with
the garbled source timezone "Invalid/Zone" raises `UnknownTimeZoneError` to
the caller instead of resolving it to a UTC handle. -/
theorem C1_counterexample :
    Original.convert_time 0 "Invalid/Zone" "09:00" "UTC"
      = Except.error (PyErr.unknownTimeZoneError "Invalid/Zone") := rfl

/-- Claim C9 (confirmed): an empty or absent timezone name resolves through
the process default read from the TZ environment setting: with TZ unset the
default is UTC (both variants), and with TZ set to a database name the
default is that zone. -/
theorem C9_default_timezone (osZone : Option String) (s : String) (z : ZoneInfo)
    (hs : iana_db s = some z) :
    (∀ calls, (get_timezone none none (runCalls none calls initState)).1 = UTC_zone) ∧
    (∀ calls, (get_timezone none (some "") (runCalls none calls initState)).1 = UTC_zone) ∧
    (∀ calls, (get_timezone (some s) none (runCalls (some s) calls initState)).1 = z) ∧
    Original.get_local_timezone none osZone = UTC_zone ∧
    Original.get_local_timezone (some s) osZone = z := by
  refine ⟨?_, ?_, ?_, ?_, ?_⟩
  · intro calls
    rw [get_timezone_runCalls_fst]
    rfl
  · intro calls
    rw [get_timezone_runCalls_fst]
    rfl
  · intro calls
    rw [get_timezone_runCalls_fst]
    show pureResolveName (LOCAL_TZ_NAME (some s)) = z
    rw [show LOCAL_TZ_NAME (some s) = s from rfl, pureResolveName, hs]
    rfl
  · rfl
  · have hgd : iana_db ((some s).getD "UTC") = some z := by
      rwa [show (some s).getD "UTC" = s from rfl]
    simp only [Original.get_local_timezone, hgd]

/-- Witness for C9: TZ unset resolves the empty argument to UTC; TZ set to
"Asia/Seoul" resolves it to the Seoul handle instead, in both variants. -/
theorem C9_default_timezone_witness :
    iana_db "Asia/Seoul" = some Seoul_zone ∧
    (get_timezone none none (runCalls none [] initState)).1 = UTC_zone ∧
    (get_timezone (some "Asia/Seoul") none (runCalls (some "Asia/Seoul") [] initState)).1
      = Seoul_zone ∧
    Original.get_local_timezone none none = UTC_zone ∧
    Original.get_local_timezone (some "Asia/Seoul") none = Seoul_zone := by
  have h := C9_default_timezone none "Asia/Seoul" Seoul_zone rfl
  exact ⟨rfl, h.1 [], h.2.2.1 [], h.2.2.2.1, h.2.2.2.2⟩

/-- Claim C8 (confirmed): `get_current_time("UTC")` returns a record with
timezone "UTC", dst false and zero `utc_offset_hours`, in both variants, for
every TZ setting, ambient clock and reachable resolver state (the full
records are pinned down, which includes those three fields). -/
theorem C8_current_time_utc (tzEnv osZone : Option String)
    (calls : List (Option String)) (today : Nat) (sod : Int) :
    (Optimized.get_current_time tzEnv today sod (some "UTC")
        (runCalls tzEnv calls initState)).1 =
      { timezone := "UTC", iso8601 := ⟨(today : Int) * 86400 + sod, 0⟩, dst := false,
        utc_offset_hours := 0, timestamp := (today : Int) * 86400 + sod } ∧
    Original.get_current_time tzEnv osZone today sod (some "UTC") =
      { timezone := "UTC", iso8601 := ⟨(today : Int) * 86400 + sod, 0⟩, dst := false,
        utc_offset_hours := 0 } := by
  constructor
  · have hopt : (get_timezone tzEnv (some (normName tzEnv (some "UTC")))
        (runCalls tzEnv calls initState)).1 = UTC_zone := by
      rw [show normName tzEnv (some "UTC") = "UTC" from rfl]
      rw [get_timezone_runCalls_fst]
      rfl
    simp only [Optimized.get_current_time, hopt, UTC_zone]
    norm_num
  · have horig : Original.resolveCurrent tzEnv osZone (some "UTC") = UTC_zone := rfl
    simp only [Original.get_current_time, horig, UTC_zone]
    norm_num

/-- Claim C2 (corrected, amended): in the optimized variant every time string
that fails HH:MM parsing yields the structured invalid-input record carrying
the offending string and a reason, regardless of the timezone arguments and
state — never a raise and never an empty record; in the original variant the
same parse failure raises `ValueError` to the caller instead. -/
theorem C2_invalid_time (tzEnv : Option String) (today : Nat)
    (src time tgt : String) (st : ResolverState)
    (hp : time_fromisoformat time = none) :
    (Optimized.convert_time tzEnv today src time tgt st).1 =
      ConvOut.err ("Invalid time format: " ++ time ++ ". Expected HH:MM format.")
                  ("Invalid isoformat string: " ++ time) ∧
    (∀ zs zt, Original.resolveConvert src = Except.ok zs →
      Original.resolveConvert tgt = Except.ok zt →
      Original.convert_time today src time tgt
        = Except.error (PyErr.valueError ("Invalid isoformat string: " ++ time))) := by
  constructor
  · simp only [Optimized.convert_time, hp]
  · intro zs zt hzs hzt
    simp only [Original.convert_time, hzs, hzt, hp]

/-- Witness for C2 (amended): the invalid time string "noon" produces the
structured error record in the optimized variant and a raised `ValueError`
in the original variant. -/
theorem C2_invalid_time_witness :
    time_fromisoformat "noon" = none ∧
    (Optimized.convert_time none 0 "UTC" "noon" "UTC" initState).1 =
      ConvOut.err ("Invalid time format: " ++ "noon" ++ ". Expected HH:MM format.")
                  ("Invalid isoformat string: " ++ "noon") ∧
    Original.resolveConvert "UTC" = Except.ok UTC_zone ∧
    Original.convert_time 0 "UTC" "noon" "UTC"
      = Except.error (PyErr.valueError ("Invalid isoformat string: " ++ "noon")) := by
  have h := C2_invalid_time none 0 "UTC" "noon" "UTC" initState (by decide)
  exact ⟨by decide, h.1, rfl, h.2 UTC_zone UTC_zone rfl rfl⟩

/-- Counterexample for C2 as stated: the original `convert_time` raises
`ValueError` on the invalid time string "12:60" instead of returning a
structured invalid-input record. -/
theorem C2_counterexample :
    Original.convert_time 0 "UTC" "12:60" "UTC"
      = Except.error (PyErr.valueError ("Invalid isoformat string: " ++ "12:60")) := rfl

/-- Claim C3 (corrected, amended): on every successful optimized conversion,
`time_difference_seconds` is 0 — it is the difference of the timestamps of
the same instant — so it equals `utc_offset_diff_hours × 3600` exactly when
that offset difference is zero, not in general. -/
theorem C3_time_difference_zero (tzEnv : Option String) (today : Nat)
    (src time tgt : String) (st : ResolverState) (r : ConvSuccess)
    (hok : (Optimized.convert_time tzEnv today src time tgt st).1 = ConvOut.ok r) :
    r.time_difference_seconds = 0 ∧
    (∀ q : ℚ, r.utc_offset_diff_hours = some q →
      ((r.time_difference_seconds : ℚ) = q * 3600 ↔ q = 0)) := by
  cases hp : time_fromisoformat time with
  | none =>
    rw [show (Optimized.convert_time tzEnv today src time tgt st).1
        = ConvOut.err ("Invalid time format: " ++ time ++ ". Expected HH:MM format.")
            ("Invalid isoformat string: " ++ time) from by
      simp only [Optimized.convert_time, hp]] at hok
    exact absurd hok (by simp)
  | some t =>
    rw [convert_time_opt_eq tzEnv today src time tgt st t hp] at hok
    injection hok with h
    subst h
    refine ⟨rfl, ?_⟩
    intro q _
    show ((0 : Int) : ℚ) = q * 3600 ↔ q = 0
    rw [Int.cast_zero]
    constructor
    · intro h2
      rcases mul_eq_zero.mp h2.symm with h3 | h3
      · exact h3
      · norm_num at h3
    · intro h2
      rw [h2, zero_mul]

/-- The Seoul → New York conversion record on a non-DST day. -/
def seoulToNyRecord : ConvSuccess :=
  { source_time := ⟨32400, 32400⟩, source_timezone := "Asia/Seoul",
    target_time := ⟨-18000, -18000⟩, target_timezone := "America/New_York",
    dst_source := false, dst_target := false,
    utc_offset_diff_hours := some (((-50400 : Int) : ℚ) / 3600),
    time_difference_seconds := 0 }

/-- Witness for C3 (amended): the Seoul → New York conversion succeeds with a
-14-hour offset difference and a zero `time_difference_seconds`, and the
spec identity holds for it only in the degenerate sense of the amended
claim. -/
theorem C3_time_difference_zero_witness :
    ((Optimized.convert_time none 0 "Asia/Seoul" "09:00" "America/New_York" initState).1
      = ConvOut.ok seoulToNyRecord) ∧
    seoulToNyRecord.time_difference_seconds = 0 ∧
    seoulToNyRecord.utc_offset_diff_hours = some (((-50400 : Int) : ℚ) / 3600) ∧
    ((seoulToNyRecord.time_difference_seconds : ℚ) = (((-50400 : Int) : ℚ) / 3600) * 3600
      ↔ (((-50400 : Int) : ℚ) / 3600) = 0) := by
  have h := C3_time_difference_zero none 0 "Asia/Seoul" "09:00" "America/New_York" initState
    seoulToNyRecord rfl
  exact ⟨rfl, h.1, rfl, h.2 (((-50400 : Int) : ℚ) / 3600) rfl⟩

/-- Counterexample for C3 as stated: for Seoul → New York the
`utc_offset_diff_hours` is -50400/3600 = -14 while `time_difference_seconds`
is 0, and 0 is not -14 × 3600. -/
theorem C3_counterexample :
    optConvDiff (Optimized.convert_time none 0 "Asia/Seoul" "09:00" "America/New_York"
        initState).1 = some (some (((-50400 : Int) : ℚ) / 3600)) ∧
    (((-50400 : Int) : ℚ) / 3600) = -14 ∧
    optTimeDiff (Optimized.convert_time none 0 "Asia/Seoul" "09:00" "America/New_York"
        initState).1 = some 0 ∧
    ((0 : ℚ) ≠ (-14) * 3600) :=
  ⟨rfl, by norm_num, rfl, by norm_num⟩

/-- Claim C4 (corrected, amended): a same-zone conversion of a valid HH:MM
time succeeds with source and target representing the same local time and a
zero `time_difference_seconds`; but `utc_offset_diff_hours` is `some 0` only
when the zone's offset is nonzero — for a zero-offset zone such as UTC the
truthiness guard yields `None` instead of zero. -/
theorem C4_same_zone (tzEnv : Option String) (today : Nat) (A time : String)
    (st : ResolverState) (t : TimeOfDay) (hp : time_fromisoformat time = some t) :
    (Optimized.convert_time tzEnv today A time A st).1 =
      ConvOut.ok
        { source_time := ⟨wallOf today t, (srcZone tzEnv A st).utcoffsetSec today⟩,
          source_timezone := (srcZone tzEnv A st).key,
          target_time := ⟨wallOf today t, (srcZone tzEnv A st).utcoffsetSec today⟩,
          target_timezone := (srcZone tzEnv A st).key,
          dst_source := (srcZone tzEnv A st).dstSec today != 0,
          dst_target := (srcZone tzEnv A st).dstSec today != 0,
          utc_offset_diff_hours :=
            if (srcZone tzEnv A st).utcoffsetSec today ≠ 0 then some 0 else none,
          time_difference_seconds := 0 } ∧
    (∀ z, Original.resolveConvert A = Except.ok z →
      Original.convert_time today A time A =
        Except.ok
          { source_time := ⟨wallOf today t, z.utcoffsetSec today⟩,
            source_timezone := z.key,
            target_time := ⟨wallOf today t, z.utcoffsetSec today⟩,
            target_timezone := z.key,
            dst_source := z.dstSec today != 0,
            dst_target := z.dstSec today != 0,
            utc_offset_diff_hours :=
              if z.utcoffsetSec today ≠ 0 then some 0 else none }) := by
  constructor
  · rw [convert_time_opt_eq tzEnv today A time A st t hp, tgtZone_same]
    simp only [ConvOut.ok.injEq, ConvSuccess.mk.injEq, LocalDT.mk.injEq, true_and, and_true]
    constructor
    · omega
    · by_cases ho : (srcZone tzEnv A st).utcoffsetSec today = 0
      · simp [ho]
      · simp [ho, sub_self]
  · intro z hz
    simp only [Original.convert_time, hz, hp]
    simp only [Except.ok.injEq, ConvOrig.mk.injEq, LocalDT.mk.injEq, wallOf,
      true_and, and_true]
    constructor
    · omega
    · by_cases ho : z.utcoffsetSec today = 0
      · simp [ho]
      · simp [ho, sub_self]

/-- Witness for C4 (amended): the same-zone conversion for Asia/Seoul (a
nonzero-offset zone) produces the pinned-down record, in both variants. -/
theorem C4_same_zone_witness :
    time_fromisoformat "09:00" = some ⟨9, 0⟩ ∧
    (Optimized.convert_time none 0 "Asia/Seoul" "09:00" "Asia/Seoul" initState).1 =
      ConvOut.ok
        { source_time := ⟨wallOf 0 ⟨9, 0⟩, (srcZone none "Asia/Seoul" initState).utcoffsetSec 0⟩,
          source_timezone := (srcZone none "Asia/Seoul" initState).key,
          target_time := ⟨wallOf 0 ⟨9, 0⟩, (srcZone none "Asia/Seoul" initState).utcoffsetSec 0⟩,
          target_timezone := (srcZone none "Asia/Seoul" initState).key,
          dst_source := (srcZone none "Asia/Seoul" initState).dstSec 0 != 0,
          dst_target := (srcZone none "Asia/Seoul" initState).dstSec 0 != 0,
          utc_offset_diff_hours :=
            if (srcZone none "Asia/Seoul" initState).utcoffsetSec 0 ≠ 0 then some 0 else none,
          time_difference_seconds := 0 } ∧
    Original.resolveConvert "Asia/Seoul" = Except.ok Seoul_zone ∧
    Original.convert_time 0 "Asia/Seoul" "09:00" "Asia/Seoul" =
      Except.ok
        { source_time := ⟨wallOf 0 ⟨9, 0⟩, Seoul_zone.utcoffsetSec 0⟩,
          source_timezone := Seoul_zone.key,
          target_time := ⟨wallOf 0 ⟨9, 0⟩, Seoul_zone.utcoffsetSec 0⟩,
          target_timezone := Seoul_zone.key,
          dst_source := Seoul_zone.dstSec 0 != 0,
          dst_target := Seoul_zone.dstSec 0 != 0,
          utc_offset_diff_hours :=
            if Seoul_zone.utcoffsetSec 0 ≠ 0 then some 0 else none } := by
  have h := C4_same_zone none 0 "Asia/Seoul" "09:00" initState ⟨9, 0⟩ (by decide)
  exact ⟨by decide, h.1, rfl, h.2 Seoul_zone rfl⟩

/-- Counterexample for C4 as stated: converting "09:00" from UTC to UTC
returns `utc_offset_diff_hours = None`, not the claimed zero. -/
theorem C4_counterexample :
    optConvDiff (Optimized.convert_time none 0 "UTC" "09:00" "UTC" initState).1 = some none ∧
    (some none : Option (Option ℚ)) ≠ some (some 0) :=
  ⟨rfl, by decide⟩

/-- Claim C7 (corrected, amended): whenever both offsets at the converted
instant are nonzero, `utc_offset_diff_hours` is the signed target-minus-
source offset difference in hours, and the Seoul → New York example yields
-13 during U.S. daylight saving and -14 outside it; but when either offset
is zero the field is `None` rather than the signed difference (see C10), so
the universally quantified form of the claim fails. -/
theorem C7_offset_difference (tzEnv : Option String) (today : Nat)
    (src time tgt : String) (st : ResolverState) (t : TimeOfDay)
    (hp : time_fromisoformat time = some t)
    (hT : (tgtZone tzEnv src tgt st).utcoffsetSec today ≠ 0)
    (hS : (srcZone tzEnv src st).utcoffsetSec today ≠ 0) :
    optConvDiff (Optimized.convert_time tzEnv today src time tgt st).1 =
      some (some ((((tgtZone tzEnv src tgt st).utcoffsetSec today
          - (srcZone tzEnv src st).utcoffsetSec today : Int) : ℚ) / 3600)) ∧
    (∀ d, optConvDiff (Optimized.convert_time none d "Asia/Seoul" "09:00"
        "America/New_York" initState).1
      = some (some (if nyIsDst d then (-13 : ℚ) else -14))) := by
  constructor
  · rw [convert_time_opt_eq tzEnv today src time tgt st t hp]
    simp only [optConvDiff]
    rw [if_pos ⟨hT, hS⟩]
  · intro d
    rw [convert_time_opt_eq none d "Asia/Seoul" "09:00" "America/New_York" initState
      ⟨9, 0⟩ (by decide)]
    rw [show srcZone none "Asia/Seoul" initState = Seoul_zone from rfl,
        show tgtZone none "Asia/Seoul" "America/New_York" initState = NewYork_zone from rfl]
    simp only [optConvDiff]
    by_cases hd : nyIsDst d = true
    · simp only [Seoul_zone, NewYork_zone, hd, if_true]
      norm_num
    · have hd2 : nyIsDst d = false := by
        revert hd
        cases nyIsDst d <;> simp
      simp only [Seoul_zone, NewYork_zone, hd2]
      norm_num

/-- Witness for C7 (amended): on a non-DST day the Seoul → New York call
carries the signed offset difference (which evaluates to -14 hours). -/
theorem C7_offset_difference_witness :
    (time_fromisoformat "09:00" = some ⟨9, 0⟩ ∧
     (tgtZone none "Asia/Seoul" "America/New_York" initState).utcoffsetSec 0 ≠ 0 ∧
     (srcZone none "Asia/Seoul" initState).utcoffsetSec 0 ≠ 0) ∧
    optConvDiff (Optimized.convert_time none 0 "Asia/Seoul" "09:00" "America/New_York"
        initState).1 =
      some (some ((((tgtZone none "Asia/Seoul" "America/New_York" initState).utcoffsetSec 0
          - (srcZone none "Asia/Seoul" initState).utcoffsetSec 0 : Int) : ℚ) / 3600)) := by
  have h := C7_offset_difference none 0 "Asia/Seoul" "09:00" "America/New_York" initState
    ⟨9, 0⟩ (by decide) (by decide) (by decide)
  exact ⟨⟨by decide, by decide, by decide⟩, h.1⟩

/-- Counterexample for C7 as stated: the successful conversion from UTC
(offset zero) to Seoul returns `utc_offset_diff_hours = None`, although the
signed target-minus-source difference is 9 hours. -/
theorem C7_counterexample :
    optConvDiff (Optimized.convert_time none 0 "UTC" "09:00" "Asia/Seoul" initState).1
      = some none ∧
    (((tgtZone none "UTC" "Asia/Seoul" initState).utcoffsetSec 0
        - (srcZone none "UTC" initState).utcoffsetSec 0 : Int) : ℚ) / 3600 = 9 ∧
    (some none : Option (Option ℚ)) ≠ some (some 9) := by
  refine ⟨rfl, ?_, by decide⟩
  rw [show tgtZone none "UTC" "Asia/Seoul" initState = Seoul_zone from rfl,
      show srcZone none "UTC" initState = UTC_zone from rfl]
  norm_num [Seoul_zone, UTC_zone]

/-- Claim C10 (confirmed): when the source or target offset at the converted
instant is exactly zero (for example when either zone is UTC), the returned
`utc_offset_diff_hours` is `None` rather than a number, because the guard
`if tgt_offset and src_offset` tests timedelta truthiness rather than
presence — in both variants. -/
theorem C10_zero_offset_none (tzEnv : Option String) (today : Nat)
    (src time tgt : String) (st : ResolverState) (t : TimeOfDay)
    (hp : time_fromisoformat time = some t)
    (h0 : (srcZone tzEnv src st).utcoffsetSec today = 0 ∨
          (tgtZone tzEnv src tgt st).utcoffsetSec today = 0) :
    optConvDiff (Optimized.convert_time tzEnv today src time tgt st).1 = some none ∧
    (∀ zs zt, Original.resolveConvert src = Except.ok zs →
      Original.resolveConvert tgt = Except.ok zt →
      (zs.utcoffsetSec today = 0 ∨ zt.utcoffsetSec today = 0) →
      origConvDiff (Original.convert_time today src time tgt) = some none) := by
  constructor
  · rw [convert_time_opt_eq tzEnv today src time tgt st t hp]
    simp only [optConvDiff]
    rw [if_neg]
    intro hand
    rcases h0 with h | h
    · exact hand.2 h
    · exact hand.1 h
  · intro zs zt hzs hzt h0o
    simp only [Original.convert_time, hzs, hzt, hp, origConvDiff]
    rw [if_neg]
    intro hand
    rcases h0o with h | h
    · exact hand.2 h
    · exact hand.1 h

/-- Witness for C10: converting "09:00" from UTC (offset zero) to Seoul gives
`utc_offset_diff_hours = None` in both variants. -/
theorem C10_zero_offset_none_witness :
    (time_fromisoformat "09:00" = some ⟨9, 0⟩ ∧
     (srcZone none "UTC" initState).utcoffsetSec 0 = 0) ∧
    optConvDiff (Optimized.convert_time none 0 "UTC" "09:00" "Asia/Seoul" initState).1
      = some none ∧
    origConvDiff (Original.convert_time 0 "UTC" "09:00" "Asia/Seoul") = some none := by
  have h := C10_zero_offset_none none 0 "UTC" "09:00" "Asia/Seoul" initState ⟨9, 0⟩
    (by decide) (Or.inl (by decide))
  exact ⟨⟨by decide, by decide⟩, h.1, h.2 UTC_zone Seoul_zone rfl rfl (Or.inl (by decide))⟩
